import Mathlib

/-!
# Verification of the project-approval / readiness subsystem

Shallow embedding of the readiness scorer, the approval state machine and
the reviewer-comment ledger of the project-management backend
(`api/employee-management/[...segments].js`, with the client mirror in the
Angular project component).

Modelling conventions:
* JavaScript numbers are modelled as exact rationals (`ℚ`); `Math.round`
  is round-half-up: `⌊x + 1/2⌋`.
* JSON values arriving from the client are modelled post-boundary: a field
  that must be a string (otherwise the code substitutes a default) is an
  `Option String` (`none` = absent or not a string); numeric ids are
  `Option Int`.
* The clock (`new Date()`) is passed explicitly as a `now : Nat` timestamp.
* Stored lists (status history, timeline, reviewer comments) are modelled
  as lists of well-typed records: the JSON-level defensive cases of the
  `normalize*` helpers that drop non-object entries or coerce wrongly
  typed fields cannot arise for records the code itself persisted, and the
  claims under study quantify over such records.
* Presentation-only passthrough fields (owner names, due dates, notes,
  document arrays, ...) that no claim mentions are omitted from the record
  structures.
-/

namespace ProjectMgmt

/-- Checklist item status enumeration (`READINESS_STATUS_VALUES` keys). -/
inductive ReadinessStatus where
  | not_started
  | in_progress
  | blocked
  | done
deriving Repr, DecidableEq

/-- `READINESS_STATUS_VALUES`: not_started = 0, in_progress = 0.5,
blocked = 0, done = 1. -/
def READINESS_STATUS_VALUES (s : ReadinessStatus) : ℚ :=
  match s with
  | .not_started => 0
  | .in_progress => 1/2
  | .blocked => 0
  | .done => 1

/-- `READINESS_DEFINITIONS`: the fixed weighted schedule (id, weight);
titles/descriptions/categories are presentation fields and omitted. -/
def READINESS_DEFINITIONS : List (String × ℚ) :=
  [("scopeDefined", 25), ("budgetApproved", 20), ("legalReviewed", 20),
   ("assetsPrepared", 15), ("kickoffScheduled", 20)]

/-- `READINESS_TOTAL_WEIGHT = READINESS_DEFINITIONS.reduce((t, i) => t + i.weight, 0)`. -/
def READINESS_TOTAL_WEIGHT : ℚ :=
  (READINESS_DEFINITIONS.map Prod.snd).sum

/-- A raw checklist item as sent by the client: `id` (string, items with a
non-string id are filtered out before the lookup map is built) and the raw
`status` field (`none` when absent or not a string). -/
structure RawChecklistItem where
  id : String
  status : Option String
deriving Repr, DecidableEq

/-- Status validation inside `normalizeReadinessChecklist`: the incoming
status is kept only when it is a string and a key of
`READINESS_STATUS_VALUES`; otherwise the item counts as `not_started`. -/
def parseReadinessStatus (raw : Option String) : ReadinessStatus :=
  match raw with
  | some "not_started" => .not_started
  | some "in_progress" => .in_progress
  | some "blocked" => .blocked
  | some "done" => .done
  | _ => .not_started

/-- `itemsById.get(definition.id)`: the JS `Map` built from the item list
keeps the last entry per key, so the lookup returns the status of the last
item carrying this task id (`none` when no item does, matching
`?? {}` / `undefined` in the source). -/
def lookupItemStatus (items : List RawChecklistItem) (taskId : String) :
    Option String :=
  match items.reverse.find? (fun it => it.id == taskId) with
  | some it => it.status
  | none => none

/-- The effective (validated) status of a task given the raw item list. -/
def itemStatus (items : List RawChecklistItem) (taskId : String) :
    ReadinessStatus :=
  parseReadinessStatus (lookupItemStatus items taskId)

/-- `completedWeight`, accumulated over a task schedule:
`Σ weight(task) × statusValue(item.status)`.  Parametrised by the schedule
because the server closes over `READINESS_DEFINITIONS` while the client
mirror (`buildReadinessView`) folds over its own `readinessTasks` list. -/
def completedWeightW (schedule : List (String × ℚ))
    (items : List RawChecklistItem) : ℚ :=
  (schedule.map
    (fun d => d.2 * READINESS_STATUS_VALUES (itemStatus items d.1))).sum

/-- Total weight of a schedule. -/
def totalWeightW (schedule : List (String × ℚ)) : ℚ :=
  (schedule.map Prod.snd).sum

/-- JavaScript `Math.round`: round half toward positive infinity. -/
def roundHalfUp (q : ℚ) : ℤ :=
  ⌊q + 1/2⌋

/-- `percent = totalWeight ? Math.round(completedWeight / totalWeight * 100) : 0`. -/
def percentW (schedule : List (String × ℚ))
    (items : List RawChecklistItem) : ℤ :=
  if totalWeightW schedule = 0 then 0
  else roundHalfUp (completedWeightW schedule items / totalWeightW schedule * 100)

/-- The scoring-relevant part of the checklist state produced by
`normalizeReadinessChecklist` (items keep their validated status; owner,
due-date, notes and timestamp passthrough fields are omitted). -/
structure ReadinessChecklistState where
  items : List (String × ReadinessStatus)
  totalWeight : ℚ
  completedWeight : ℚ
  percent : ℤ
deriving Repr, DecidableEq

/-- `normalizeReadinessChecklist(raw)`: validate each scheduled task's item
and derive `totalWeight` / `completedWeight` / `percent`. -/
def normalizeReadinessChecklist (raw : List RawChecklistItem) :
    ReadinessChecklistState :=
  { items := READINESS_DEFINITIONS.map (fun d => (d.1, itemStatus raw d.1))
  , totalWeight := READINESS_TOTAL_WEIGHT
  , completedWeight := completedWeightW READINESS_DEFINITIONS raw
  , percent := percentW READINESS_DEFINITIONS raw }

/-- String keys of the readiness statuses (inverse of status validation). -/
def statusKey (s : ReadinessStatus) : String :=
  match s with
  | .not_started => "not_started"
  | .in_progress => "in_progress"
  | .blocked => "blocked"
  | .done => "done"

/-- A stored checklist state read back as raw items (`mapProject` re-runs
`normalizeReadinessChecklist` on the persisted `readinessChecklist`). -/
def stateRawItems (s : ReadinessChecklistState) : List RawChecklistItem :=
  s.items.map (fun it => ⟨it.1, some (statusKey it.2)⟩)

/-- JavaScript `String.prototype.trim()`: drop leading and trailing
whitespace.  Implemented by structural recursion over the character list
(equivalent to `String.trim`) so that proofs can evaluate it. -/
def jsTrim (s : String) : String :=
  ⟨((s.data.dropWhile Char.isWhitespace).reverse.dropWhile
      Char.isWhitespace).reverse⟩

/-- JavaScript `String.prototype.toLowerCase()` (on the ASCII statuses the
code compares).  Implemented by a structural map over the character list
(equivalent to `String.toLower`) so that proofs can evaluate it. -/
def jsToLower (s : String) : String :=
  ⟨s.data.map Char.toLower⟩

/-- `APPROVAL_STATUSES`. -/
def APPROVAL_STATUSES : List String :=
  ["draft", "in_review", "approved", "rejected"]

/-- `normalizeApprovalStatus`: non-strings become `draft`; strings are
trimmed and lower-cased and must be one of the four statuses, else `draft`. -/
def normalizeApprovalStatus (value : Option String) : String :=
  match value with
  | some s =>
      let normalized := jsToLower (jsTrim s)
      if normalized ∈ APPROVAL_STATUSES then normalized else "draft"
  | none => "draft"

/-- `APPROVAL_LABELS` (object lookup: `none` models `undefined`). -/
def APPROVAL_LABELS (status : String) : Option String :=
  if status = "draft" then some "Draft"
  else if status = "in_review" then some "In Review"
  else if status = "approved" then some "Approved"
  else if status = "rejected" then some "Rejected"
  else none

/-- A persisted `statusHistory` entry (the `note`/`attachments`/`metadata`
passthrough fields are omitted). -/
structure StatusHistoryEntry where
  id : String
  status : String
  previousStatus : Option String
  changedAt : Nat
  changedBy : Option Int
  changedByName : Option String
  comment : Option String
deriving Repr, DecidableEq, Inhabited

/-- A persisted `timeline` entry (`dueAt`/`assigneeIds`/`supportingDocs`
passthrough fields are omitted). -/
structure TimelineEntry where
  id : String
  label : String
  description : Option String
  state : String
  occurredAt : Nat
  status : Option String
  actorId : Option Int
  actorName : Option String
deriving Repr, DecidableEq, Inhabited

/-- A persisted reviewer comment; `sect` models the `section` field of the
source (`section` is a Lean keyword), `resolvedBy` is `actorId ?? actorName
?? null`, hence a number or a string (`suggestions` omitted). -/
structure ReviewerCommentEntry where
  id : String
  sect : String
  comment : String
  reviewerId : Option Int
  reviewerName : Option String
  createdAt : Nat
  severity : String
  resolved : Bool
  resolvedAt : Option Nat
  resolvedBy : Option (Int ⊕ String)
deriving Repr, DecidableEq, Inhabited

/-- The `approvalNotes` object keys written by the transition. -/
structure ApprovalNotes where
  lastAction : Option String
  lastComment : Option String
  lastActorId : Option Int
  lastActorName : Option String
deriving Repr, DecidableEq, Inhabited

/-- The persisted project record, restricted to the fields the
readiness/approval subsystem reads or writes. -/
structure ProjectRecord where
  status : String
  approvalStatus : String
  approvalRequestedAt : Option Nat
  approvalRequestedBy : Option Int
  approvalResolvedAt : Option Nat
  approvalResolvedBy : Option Int
  approvalReason : Option String
  approvalNotes : ApprovalNotes
  statusHistory : List StatusHistoryEntry
  timeline : List TimelineEntry
  reviewerComments : List ReviewerCommentEntry
  readinessChecklist : ReadinessChecklistState
  readinessScore : Option ℤ
deriving Repr, DecidableEq

/-- `normalizeStatusHistory`, per entry.  On well-typed stored entries the
non-object filter never fires, so the normalisation is a per-entry map. -/
def normalizeStatusHistoryEntry (e : StatusHistoryEntry) : StatusHistoryEntry :=
  { e with
    status := normalizeApprovalStatus (some e.status)
  , previousStatus :=
      match e.previousStatus with
      | some p => if p = "" then none else some (normalizeApprovalStatus (some p))
      | none => none
  , comment :=
      match e.comment with
      | some c => if jsTrim c = "" then none else some c
      | none => none }

/-- `normalizeStatusHistory`. -/
def normalizeStatusHistory (history : List StatusHistoryEntry) :
    List StatusHistoryEntry :=
  history.map normalizeStatusHistoryEntry

/-- `normalizeTimelineEntries`, per entry. -/
def normalizeTimelineEntry (e : TimelineEntry) : TimelineEntry :=
  { e with
    label := if jsTrim e.label = "" then "Event" else e.label
  , description :=
      match e.description with
      | some d => if jsTrim d = "" then none else some d
      | none => none
  , status :=
      match e.status with
      | some s => if s = "" then none else some (normalizeApprovalStatus (some s))
      | none => none
  , actorName :=
      match e.actorName with
      | some a => if jsTrim a = "" then none else some a
      | none => none }

/-- `normalizeTimelineEntries`. -/
def normalizeTimelineEntries (entries : List TimelineEntry) :
    List TimelineEntry :=
  entries.map normalizeTimelineEntry

/-- `normalizeReviewerComments`, per entry. -/
def normalizeReviewerCommentEntry (e : ReviewerCommentEntry) :
    ReviewerCommentEntry :=
  { e with
    sect := if jsTrim e.sect = "" then "overview" else e.sect
  , comment := jsTrim e.comment }

/-- `normalizeReviewerComments`. -/
def normalizeReviewerComments (raw : List ReviewerCommentEntry) :
    List ReviewerCommentEntry :=
  raw.map normalizeReviewerCommentEntry

/-- `buildApprovalHistoryEntry`. -/
def buildApprovalHistoryEntry (status : String) (previousStatus : Option String)
    (actorId : Option Int) (actorName : Option String) (comment : String)
    (now : Nat) : StatusHistoryEntry :=
  { id := "history-" ++ toString now
  , status := status
  , previousStatus := previousStatus
  , changedAt := now
  , changedBy := actorId
  , changedByName := actorName
  , comment := if jsTrim comment = "" then none else some (jsTrim comment) }

/-- `buildApprovalTimelineEntry`. -/
def buildApprovalTimelineEntry (status : String) (actorId : Option Int)
    (actorName : Option String) (comment : String) (now : Nat) : TimelineEntry :=
  { id := "approval-" ++ toString now
  , label := (APPROVAL_LABELS status).getD status ++ " status"
  , description := if jsTrim comment = "" then none else some (jsTrim comment)
  , state := "completed"
  , occurredAt := now
  , status := some status
  , actorId := actorId
  , actorName := actorName }

/-- The transition payload: `actorId` is modelled after the numeric
coercion (`typeof number ? ... : Number(...) || null`); `actorName` and
`comment` are the raw string fields (`none` = absent or not a string). -/
structure ApprovalPayload where
  actorId : Option Int
  actorName : Option String
  comment : Option String
deriving Repr, DecidableEq

/-- The six local variables of the transition switch. -/
structure ApprovalVars where
  nextStatus : String
  approvalRequestedAt : Option Nat
  approvalRequestedBy : Option Int
  approvalResolvedAt : Option Nat
  approvalResolvedBy : Option Int
  approvalReason : Option String
deriving Repr, DecidableEq

/-- Outcome of `transitionProjectApproval` on a found project: an
unsupported action throws; a transition whose status does not change
(and is not `reset`) returns `mapProject(project)` without writing;
otherwise `prisma.project.update` persists the new record. -/
inductive TransitionOutcome where
  | err (msg : String)
  | noop (record : ProjectRecord)
  | persisted (record : ProjectRecord)
deriving Repr, DecidableEq

/-- `transitionProjectApproval(projectId, action, payload)`, modelled on the
already-fetched project record (projectId validation and the DB fetch are
the storage boundary). -/
def transitionProjectApproval (project : ProjectRecord) (action : String)
    (payload : ApprovalPayload) (now : Nat) : TransitionOutcome :=
  let actorId := payload.actorId
  let actorName :=
    match payload.actorName with
    | some a => if jsTrim a = "" then none else some (jsTrim a)
    | none => none
  let comment :=
    match payload.comment with
    | some c => jsTrim c
    | none => ""
  let currentStatus := normalizeApprovalStatus (some project.approvalStatus)
  let vars0 : ApprovalVars :=
    { nextStatus := currentStatus
    , approvalRequestedAt := project.approvalRequestedAt
    , approvalRequestedBy := project.approvalRequestedBy
    , approvalResolvedAt := project.approvalResolvedAt
    , approvalResolvedBy := project.approvalResolvedBy
    , approvalReason := project.approvalReason }
  let step : Option ApprovalVars :=
    if action = "request" then
      some (if currentStatus = "draft" ∨ currentStatus = "rejected" then
        { nextStatus := "in_review"
        , approvalRequestedAt := some now
        , approvalRequestedBy := actorId
        , approvalResolvedAt := none
        , approvalResolvedBy := none
        , approvalReason :=
            if comment ≠ "" then some comment else project.approvalReason }
      else vars0)
    else if action = "approve" then
      some (if currentStatus = "in_review" then
        { vars0 with
          nextStatus := "approved"
        , approvalResolvedAt := some now
        , approvalResolvedBy := actorId
        , approvalReason :=
            if comment ≠ "" then some comment else project.approvalReason }
      else vars0)
    else if action = "reject" then
      some (if currentStatus = "in_review" then
        { vars0 with
          nextStatus := "rejected"
        , approvalResolvedAt := some now
        , approvalResolvedBy := actorId
        , approvalReason := some (if comment ≠ "" then comment else "Rejected") }
      else vars0)
    else if action = "reset" then
      some
        { nextStatus := "draft"
        , approvalRequestedAt := none
        , approvalRequestedBy := none
        , approvalResolvedAt := none
        , approvalResolvedBy := none
        , approvalReason := none }
    else none
  match step with
  | none => .err ("Unsupported approval action: " ++ action)
  | some vars =>
      if vars.nextStatus = currentStatus ∧ action ≠ "reset" then
        .noop project
      else
        let history := normalizeStatusHistory project.statusHistory ++
          [buildApprovalHistoryEntry vars.nextStatus (some currentStatus)
            actorId actorName comment now]
        let timeline := normalizeTimelineEntries project.timeline ++
          [buildApprovalTimelineEntry vars.nextStatus actorId actorName
            comment now]
        let approvalNotes : ApprovalNotes :=
          { lastAction := some action
          , lastComment := some comment
          , lastActorId := actorId
          , lastActorName := actorName }
        .persisted
          { project with
            status := vars.nextStatus
          , approvalStatus := vars.nextStatus
          , approvalRequestedAt := vars.approvalRequestedAt
          , approvalRequestedBy := vars.approvalRequestedBy
          , approvalResolvedAt := vars.approvalResolvedAt
          , approvalResolvedBy := vars.approvalResolvedBy
          , approvalReason := vars.approvalReason
          , approvalNotes := approvalNotes
          , statusHistory := history
          , timeline := timeline }

/-- Payload of `addProjectReviewerComment` (raw client fields). -/
structure ReviewerCommentPayload where
  sect : Option String
  comment : Option String
  reviewerId : Option Int
  reviewerName : Option String
  severity : Option String
deriving Repr, DecidableEq

/-- `addProjectReviewerComment(projectId, payload)` on the fetched record:
appends one reviewer comment (with `resolved = false`) and one timeline
entry, and persists only those two columns. -/
def addProjectReviewerComment (project : ProjectRecord)
    (payload : ReviewerCommentPayload) (now : Nat) : ProjectRecord :=
  let comments := normalizeReviewerComments project.reviewerComments
  let entry : ReviewerCommentEntry :=
    { id := "comment-" ++ toString now
    , sect :=
        match payload.sect with
        | some s => if jsTrim s = "" then "overview" else jsTrim s
        | none => "overview"
    , comment :=
        match payload.comment with
        | some c => jsTrim c
        | none => ""
    , reviewerId := payload.reviewerId
    , reviewerName :=
        match payload.reviewerName with
        | some n => if jsTrim n = "" then none else some (jsTrim n)
        | none => none
    , createdAt := now
    , severity := payload.severity.getD "info"
    , resolved := false
    , resolvedAt := none
    , resolvedBy := none }
  let comments := comments ++ [entry]
  let timeline := normalizeTimelineEntries project.timeline ++
    [{ id := "review-" ++ toString now
     , label := "Reviewer comment (" ++ entry.sect ++ ")"
     , description := some entry.comment
     , state := "completed"
     , occurredAt := now
     , status := some project.approvalStatus
     , actorId := entry.reviewerId
     , actorName := entry.reviewerName }]
  { project with reviewerComments := comments, timeline := timeline }

/-- Payload of `resolveProjectReviewerComment`; `resolved` is the raw field
(`payload?.resolved === true`). -/
structure ResolveCommentPayload where
  resolved : Option Bool
  actorId : Option Int
  actorName : Option String
deriving Repr, DecidableEq

/-- The `comments[index] = { ...comments[index], resolved, resolvedAt,
resolvedBy }` assignment of `resolveProjectReviewerComment`:
`resolved = payload?.resolved === true`,
`resolvedAt = resolved ? now : undefined`,
`resolvedBy = resolved ? actorId ?? actorName ?? null : undefined`. -/
def resolveCommentUpdate (payload : ResolveCommentPayload) (now : Nat)
    (old : ReviewerCommentEntry) : ReviewerCommentEntry :=
  let resolved := payload.resolved == some true
  let actorId := payload.actorId
  let actorName :=
    match payload.actorName with
    | some a => if jsTrim a = "" then none else some (jsTrim a)
    | none => none
  { old with
    resolved := resolved
  , resolvedAt := if resolved then some now else none
  , resolvedBy :=
      if resolved then
        match actorId with
        | some i => some (Sum.inl i)
        | none =>
            match actorName with
            | some n => some (Sum.inr n)
            | none => none
      else none }

/-- `resolveProjectReviewerComment(projectId, commentId, payload)` on the
fetched record: toggles `resolved`/`resolvedAt`/`resolvedBy` on the entry
with the given id, throws "Reviewer comment not found" otherwise, and
persists only the `reviewerComments` column. -/
def resolveProjectReviewerComment (project : ProjectRecord)
    (commentId : String) (payload : ResolveCommentPayload) (now : Nat) :
    Except String ProjectRecord :=
  let comments := normalizeReviewerComments project.reviewerComments
  match comments.findIdx? (fun c => c.id == commentId) with
  | none => .error "Reviewer comment not found"
  | some index =>
      .ok { project with
            reviewerComments :=
              List.modify (resolveCommentUpdate payload now) index comments }

/-- Create/update payload, restricted to the fields of the subsystem.
Numeric/date fields are modelled post-coercion; `readinessScore` is `some`
exactly when the payload carries a number
(`typeof payload.readinessScore === "number"`). -/
structure ProjectPayload where
  status : Option String
  approvalStatus : Option String
  readinessChecklist : List RawChecklistItem
  readinessScore : Option ℤ
  statusHistory : List StatusHistoryEntry
  timeline : List TimelineEntry
  reviewerComments : List ReviewerCommentEntry
  approvalRequestedAt : Option Nat
  approvalRequestedBy : Option Int
  approvalResolvedAt : Option Nat
  approvalResolvedBy : Option Int
  approvalReason : Option String
  approvalNotes : Option ApprovalNotes
  auditCreatedBy : Option Int
  auditCreatedByName : Option String
deriving Repr, DecidableEq

/-- The record persisted by `createProject` (the atomic `projectId`
allocation is the storage boundary and outside the record model). -/
def createProjectRecord (payload : ProjectPayload) (now : Nat) : ProjectRecord :=
  let readiness := normalizeReadinessChecklist payload.readinessChecklist
  let statusHistory0 := normalizeStatusHistory payload.statusHistory
  let timeline0 := normalizeTimelineEntries payload.timeline
  let reviewerComments := normalizeReviewerComments payload.reviewerComments
  let approvalStatus := normalizeApprovalStatus payload.approvalStatus
  let statusHistory :=
    if statusHistory0.isEmpty then
      [buildApprovalHistoryEntry approvalStatus none payload.auditCreatedBy
        payload.auditCreatedByName "Project created" now]
    else statusHistory0
  let timeline :=
    if timeline0.isEmpty then
      [buildApprovalTimelineEntry approvalStatus payload.auditCreatedBy
        payload.auditCreatedByName "Initial status recorded" now]
    else timeline0
  { status := payload.status.getD "draft"
  , approvalStatus := approvalStatus
  , approvalRequestedAt := payload.approvalRequestedAt
  , approvalRequestedBy := payload.approvalRequestedBy
  , approvalResolvedAt := payload.approvalResolvedAt
  , approvalResolvedBy := payload.approvalResolvedBy
  , approvalReason := payload.approvalReason
  , approvalNotes := payload.approvalNotes.getD ⟨none, none, none, none⟩
  , statusHistory := statusHistory
  , timeline := timeline
  , reviewerComments := reviewerComments
  , readinessChecklist := readiness
  , readinessScore :=
      some (match payload.readinessScore with
            | some n => n
            | none => readiness.percent) }

/-- The record persisted by `updateProject` (same column writes as
`createProject`, without the empty-history/timeline seeding). -/
def updateProjectRecord (payload : ProjectPayload) : ProjectRecord :=
  let readiness := normalizeReadinessChecklist payload.readinessChecklist
  { status := payload.status.getD "draft"
  , approvalStatus := normalizeApprovalStatus payload.approvalStatus
  , approvalRequestedAt := payload.approvalRequestedAt
  , approvalRequestedBy := payload.approvalRequestedBy
  , approvalResolvedAt := payload.approvalResolvedAt
  , approvalResolvedBy := payload.approvalResolvedBy
  , approvalReason := payload.approvalReason
  , approvalNotes := payload.approvalNotes.getD ⟨none, none, none, none⟩
  , statusHistory := normalizeStatusHistory payload.statusHistory
  , timeline := normalizeTimelineEntries payload.timeline
  , reviewerComments := normalizeReviewerComments payload.reviewerComments
  , readinessChecklist := readiness
  , readinessScore :=
      some (match payload.readinessScore with
            | some n => n
            | none => readiness.percent) }

/-- The part of the `mapProject` read view the subsystem's claims mention. -/
structure ProjectView where
  status : String
  approvalStatus : String
  statusHistory : List StatusHistoryEntry
  timeline : List TimelineEntry
  reviewerComments : List ReviewerCommentEntry
  readinessChecklist : ReadinessChecklistState
  readinessScore : ℤ
deriving Repr, DecidableEq

/-- `mapProject(project)`: normalises every stored collection on read;
`readinessScore` is the stored value with the recomputed percent as
fallback (`project.readinessScore ?? readiness.percent`). -/
def mapProject (project : ProjectRecord) : ProjectView :=
  let readiness :=
    normalizeReadinessChecklist (stateRawItems project.readinessChecklist)
  { status := project.status
  , approvalStatus := normalizeApprovalStatus (some project.approvalStatus)
  , statusHistory := normalizeStatusHistory project.statusHistory
  , timeline := normalizeTimelineEntries project.timeline
  , reviewerComments := normalizeReviewerComments project.reviewerComments
  , readinessChecklist := readiness
  , readinessScore := project.readinessScore.getD readiness.percent }

/-- The approval form value of the client component (`getRawValue()`),
post numeric coercion of `actorId`. -/
structure ApprovalFormValue where
  actorId : Option Int
  actorName : Option String
  comment : Option String
deriving Repr, DecidableEq

/-- `buildApprovalPayload()` of the client component:
`actorId = selectedActorId ?? fallbackActorId ?? undefined` where the
fallback is the project's `leadByEmpId`. -/
def buildApprovalPayload (value : ApprovalFormValue)
    (fallbackActorId : Option Int) : ApprovalPayload :=
  { actorId :=
      match value.actorId with
      | some i => some i
      | none => fallbackActorId
  , actorName :=
      match value.actorName with
      | some a => if jsTrim a = "" then none else some (jsTrim a)
      | none => none
  , comment := value.comment.map (fun c => jsTrim c) }

/-- JavaScript falsiness of an optional string (`!payload.comment`):
`undefined` and the empty string are falsy. -/
def isFalsyComment (comment : Option String) : Bool :=
  match comment with
  | some c => c == ""
  | none => true

/-- Outcome of the client-side `performApprovalAction`: blocked before any
request is sent (project unsaved, or reject without reason), or the action
dispatched to the server with the built payload. -/
inductive ClientApprovalOutcome where
  | notSaved
  | missingRejectReason
  | dispatched (action : String) (payload : ApprovalPayload)
deriving Repr, DecidableEq

/-- `performApprovalAction(action)` of the client component: requires a
saved project, and rejects `reject` with a falsy comment ("Provide a
reason" toast) before dispatching to the server. -/
def performApprovalAction (hasProjectId : Bool) (value : ApprovalFormValue)
    (fallbackActorId : Option Int) (action : String) : ClientApprovalOutcome :=
  if hasProjectId = false then .notSaved
  else
    let payload := buildApprovalPayload value fallbackActorId
    if action == "reject" && isFalsyComment payload.comment then
      .missingRejectReason
    else .dispatched action payload

/-- The checklist of the spec's end-to-end example: scopeDefined done,
budgetApproved in_progress, legalReviewed not_started, assetsPrepared done,
kickoffScheduled blocked. -/
def exampleChecklist : List RawChecklistItem :=
  [⟨"scopeDefined", some "done"⟩,
   ⟨"budgetApproved", some "in_progress"⟩,
   ⟨"legalReviewed", some "not_started"⟩,
   ⟨"assetsPrepared", some "done"⟩,
   ⟨"kickoffScheduled", some "blocked"⟩]

/-- Observed resolution state of the reviewer comment with the given id
(`none` when no such comment exists). -/
def commentResolvedState (l : List ReviewerCommentEntry) (cid : String) :
    Option Bool :=
  (l.find? (fun c => c.id == cid)).map (fun c => c.resolved)

/-- A create/update payload that supplies its own numeric `readinessScore`
(7) next to the example checklist, whose derived percent is 50. -/
def scoreOverridePayload : ProjectPayload :=
  { status := none
  , approvalStatus := none
  , readinessChecklist := exampleChecklist
  , readinessScore := some 7
  , statusHistory := []
  , timeline := []
  , reviewerComments := []
  , approvalRequestedAt := none
  , approvalRequestedBy := none
  , approvalResolvedAt := none
  , approvalResolvedBy := none
  , approvalReason := none
  , approvalNotes := none
  , auditCreatedBy := none
  , auditCreatedByName := none }

/-- A create/update payload without a numeric `readinessScore`. -/
def noScorePayload : ProjectPayload :=
  { scoreOverridePayload with readinessScore := none }

/-- A minimal stored project record in the given approval status, used as
concrete test input. -/
def testProject (st : String) : ProjectRecord :=
  { status := st
  , approvalStatus := st
  , approvalRequestedAt := none
  , approvalRequestedBy := none
  , approvalResolvedAt := none
  , approvalResolvedBy := none
  , approvalReason := none
  , approvalNotes := ⟨none, none, none, none⟩
  , statusHistory := []
  , timeline := []
  , reviewerComments := []
  , readinessChecklist := ⟨[], 0, 0, 0⟩
  , readinessScore := some 0 }

/-- A stored reviewer comment with id `c1`, unresolved. -/
def testComment : ReviewerCommentEntry :=
  ⟨"c1", "overview", "", none, none, 0, "info", false, none, none⟩

/-- A draft project holding the single reviewer comment `c1`. -/
def testCommentProject : ProjectRecord :=
  { testProject "draft" with reviewerComments := [testComment] }

/-- The record expected from resolving `c1` on `testCommentProject` with
`resolved: true`, actor 9, at time 4. -/
def testResolvedProject : ProjectRecord :=
  { testCommentProject with
    reviewerComments :=
      [⟨"c1", "overview", "", none, none, 0, "info", true, some 4,
        some (Sum.inl 9)⟩] }

/-! ## Readiness scorer lemmas -/

theorem lookupItemStatus_append_single (items : List RawChecklistItem)
    (t q : String) (s : Option String) :
    lookupItemStatus (items ++ [⟨t, s⟩]) q =
      if t == q then s else lookupItemStatus items q := by
  unfold lookupItemStatus
  rw [List.reverse_append]
  simp only [List.reverse_cons, List.reverse_nil, List.nil_append,
    List.singleton_append, List.find?_cons]
  cases h : ((⟨t, s⟩ : RawChecklistItem).id == q) <;>
    simp_all [RawChecklistItem.id]

theorem itemStatus_append_single (items : List RawChecklistItem)
    (t q : String) (s : Option String) :
    itemStatus (items ++ [⟨t, s⟩]) q =
      if t == q then parseReadinessStatus s else itemStatus items q := by
  unfold itemStatus
  rw [lookupItemStatus_append_single]
  cases h : (t == q) <;> simp [h]

theorem statusValue_nonneg (s : ReadinessStatus) :
    0 ≤ READINESS_STATUS_VALUES s := by
  cases s <;> norm_num [READINESS_STATUS_VALUES]

theorem statusValue_le_one (s : ReadinessStatus) :
    READINESS_STATUS_VALUES s ≤ 1 := by
  cases s <;> norm_num [READINESS_STATUS_VALUES]

theorem schedule_weights_nonneg :
    ∀ d ∈ READINESS_DEFINITIONS, (0 : ℚ) ≤ d.2 := by
  intro d hd
  fin_cases hd <;> norm_num

theorem totalWeight_eq_100 : totalWeightW READINESS_DEFINITIONS = 100 := by
  norm_num [totalWeightW, READINESS_DEFINITIONS]

theorem completedWeightW_nonneg (schedule : List (String × ℚ))
    (hw : ∀ d ∈ schedule, (0 : ℚ) ≤ d.2) (items : List RawChecklistItem) :
    0 ≤ completedWeightW schedule items := by
  unfold completedWeightW
  induction schedule with
  | nil => simp
  | cons d rest ih =>
      simp only [List.map_cons, List.sum_cons]
      have hd : (0 : ℚ) ≤ d.2 := hw d (by simp)
      have hv := statusValue_nonneg (itemStatus items d.1)
      have hrest := ih (fun x hx => hw x (by simp [hx]))
      have := mul_nonneg hd hv
      linarith

theorem completedWeightW_le_total (schedule : List (String × ℚ))
    (hw : ∀ d ∈ schedule, (0 : ℚ) ≤ d.2) (items : List RawChecklistItem) :
    completedWeightW schedule items ≤ totalWeightW schedule := by
  unfold completedWeightW totalWeightW
  apply List.sum_le_sum
  intro d hd
  calc d.2 * READINESS_STATUS_VALUES (itemStatus items d.1)
      ≤ d.2 * 1 := mul_le_mul_of_nonneg_left (statusValue_le_one _) (hw d hd)
    _ = d.2 := mul_one _

theorem completedWeightW_append_mono (schedule : List (String × ℚ))
    (hw : ∀ d ∈ schedule, (0 : ℚ) ≤ d.2) (items : List RawChecklistItem)
    (t : String) (r1 r2 : Option String)
    (h : READINESS_STATUS_VALUES (parseReadinessStatus r1) ≤
      READINESS_STATUS_VALUES (parseReadinessStatus r2)) :
    completedWeightW schedule (items ++ [⟨t, r1⟩]) ≤
      completedWeightW schedule (items ++ [⟨t, r2⟩]) := by
  unfold completedWeightW
  apply List.sum_le_sum
  intro d hd
  rw [itemStatus_append_single, itemStatus_append_single]
  by_cases hb : (t == d.1)
  · simp only [hb, if_true]
    exact mul_le_mul_of_nonneg_left h (hw d hd)
  · simp only [hb, if_false]
    exact le_refl _

theorem percent_eq_floor (items : List RawChecklistItem) :
    percentW READINESS_DEFINITIONS items =
      ⌊completedWeightW READINESS_DEFINITIONS items + 1/2⌋ := by
  unfold percentW roundHalfUp
  rw [if_neg (by rw [totalWeight_eq_100]; norm_num), totalWeight_eq_100,
    div_mul_cancel₀ _ (by norm_num : (100 : ℚ) ≠ 0)]

theorem percent_nonneg (items : List RawChecklistItem) :
    0 ≤ percentW READINESS_DEFINITIONS items := by
  rw [percent_eq_floor]
  apply Int.le_floor.mpr
  have := completedWeightW_nonneg READINESS_DEFINITIONS
    schedule_weights_nonneg items
  push_cast
  linarith

theorem percent_le_100 (items : List RawChecklistItem) :
    percentW READINESS_DEFINITIONS items ≤ 100 := by
  rw [percent_eq_floor]
  have hle := completedWeightW_le_total READINESS_DEFINITIONS
    schedule_weights_nonneg items
  rw [totalWeight_eq_100] at hle
  have : ⌊completedWeightW READINESS_DEFINITIONS items + 1/2⌋ < (101 : ℤ) := by
    apply Int.floor_lt.mpr
    push_cast
    linarith
  omega

theorem percent_append_mono (items : List RawChecklistItem) (t : String)
    (r1 r2 : Option String)
    (h : READINESS_STATUS_VALUES (parseReadinessStatus r1) ≤
      READINESS_STATUS_VALUES (parseReadinessStatus r2)) :
    percentW READINESS_DEFINITIONS (items ++ [⟨t, r1⟩]) ≤
      percentW READINESS_DEFINITIONS (items ++ [⟨t, r2⟩]) := by
  rw [percent_eq_floor, percent_eq_floor]
  have := completedWeightW_append_mono READINESS_DEFINITIONS
    schedule_weights_nonneg items t r1 r2 h
  exact Int.floor_le_floor (by linarith)

theorem completedWeightW_append_congr (items : List RawChecklistItem)
    (t : String) (r1 r2 : Option String)
    (h : READINESS_STATUS_VALUES (parseReadinessStatus r1) =
      READINESS_STATUS_VALUES (parseReadinessStatus r2)) :
    completedWeightW READINESS_DEFINITIONS (items ++ [⟨t, r1⟩]) =
      completedWeightW READINESS_DEFINITIONS (items ++ [⟨t, r2⟩]) :=
  le_antisymm
    (completedWeightW_append_mono _ schedule_weights_nonneg _ _ _ _ h.le)
    (completedWeightW_append_mono _ schedule_weights_nonneg _ _ _ _ h.ge)

theorem exampleChecklist_completedWeight :
    (normalizeReadinessChecklist exampleChecklist).completedWeight = 50 := by
  simp [normalizeReadinessChecklist, completedWeightW, itemStatus,
    lookupItemStatus, parseReadinessStatus, READINESS_DEFINITIONS,
    READINESS_STATUS_VALUES, exampleChecklist]
  norm_num

theorem exampleChecklist_percent :
    (normalizeReadinessChecklist exampleChecklist).percent = 50 := by
  simp [normalizeReadinessChecklist, percentW, totalWeightW, completedWeightW,
    itemStatus, lookupItemStatus, parseReadinessStatus, READINESS_DEFINITIONS,
    READINESS_STATUS_VALUES, exampleChecklist, roundHalfUp]
  norm_num

/-! ## Claim theorems: readiness scorer -/

/-- C1: the Readiness Scorer computes `completedWeight` as
Σ weight × statusValue (statusValue: not_started = 0, in_progress = 0.5,
blocked = 0, done = 1) and `percent` as round-half-up of
`completedWeight / totalWeight × 100` (0 when totalWeight is 0); on the
spec's example checklist (done, in_progress, not_started, done, blocked
over weights 25/20/20/15/20) completedWeight = 50 and percent = 50. -/
theorem readiness_scorer_formula_and_example :
    (normalizeReadinessChecklist exampleChecklist).completedWeight = 50 ∧
    (normalizeReadinessChecklist exampleChecklist).percent = 50 ∧
    READINESS_STATUS_VALUES .not_started = 0 ∧
    READINESS_STATUS_VALUES .in_progress = 1/2 ∧
    READINESS_STATUS_VALUES .blocked = 0 ∧
    READINESS_STATUS_VALUES .done = 1 ∧
    (∀ items, (normalizeReadinessChecklist items).percent =
      roundHalfUp ((normalizeReadinessChecklist items).completedWeight /
        (normalizeReadinessChecklist items).totalWeight * 100)) ∧
    (∀ schedule items, totalWeightW schedule = 0 → percentW schedule items = 0) := by
  refine ⟨exampleChecklist_completedWeight, exampleChecklist_percent,
    rfl, rfl, rfl, rfl, ?_, ?_⟩
  · intro items
    show percentW READINESS_DEFINITIONS items =
      roundHalfUp (completedWeightW READINESS_DEFINITIONS items /
        READINESS_TOTAL_WEIGHT * 100)
    unfold percentW
    rw [if_neg (by rw [totalWeight_eq_100]; norm_num)]
    rfl
  · intro schedule items h
    unfold percentW
    rw [if_pos h]

/-- C1 witness: the example evaluation, plus the zero-total-weight guard at
the empty schedule. -/
theorem readiness_scorer_formula_witness :
    (normalizeReadinessChecklist exampleChecklist).completedWeight = 50 ∧
    (normalizeReadinessChecklist exampleChecklist).percent = 50 ∧
    totalWeightW [] = 0 ∧ percentW [] exampleChecklist = 0 :=
  ⟨readiness_scorer_formula_and_example.1,
   readiness_scorer_formula_and_example.2.1,
   rfl,
   readiness_scorer_formula_and_example.2.2.2.2.2.2.2 [] exampleChecklist rfl⟩

/-- C6: a checklist item whose status is absent, not a string, or a string
outside the four known statuses is treated as `not_started` (weight
contribution 0) and the scorer still returns a normal result — the whole
normalized checklist state equals the one where that item is explicitly
`not_started`. -/
theorem unknown_status_treated_as_not_started (s : Option String)
    (items : List RawChecklistItem) (t : String)
    (hs : ∀ v ∈ ["not_started", "in_progress", "blocked", "done"],
      s ≠ some v) :
    parseReadinessStatus s = .not_started ∧
    normalizeReadinessChecklist (items ++ [⟨t, s⟩]) =
      normalizeReadinessChecklist (items ++ [⟨t, some "not_started"⟩]) := by
  have hparse : parseReadinessStatus s = .not_started := by
    unfold parseReadinessStatus
    split
    · exact absurd rfl (hs "not_started" (by simp))
    · exact absurd rfl (hs "in_progress" (by simp))
    · exact absurd rfl (hs "blocked" (by simp))
    · exact absurd rfl (hs "done" (by simp))
    · rfl
  refine ⟨hparse, ?_⟩
  have hfun : itemStatus (items ++ [⟨t, s⟩]) =
      itemStatus (items ++ [⟨t, some "not_started"⟩]) := by
    funext q
    rw [itemStatus_append_single, itemStatus_append_single, hparse]
    rfl
  unfold normalizeReadinessChecklist percentW completedWeightW
  rw [hfun]

/-- C7: `percent` always lies in [0, 100], and moving one task's status
along not_started → in_progress → done never decreases `percent`, with
`blocked` scoring exactly like `not_started`. -/
theorem percent_bounds_and_monotone (items : List RawChecklistItem)
    (t : String) :
    (0 ≤ (normalizeReadinessChecklist items).percent ∧
      (normalizeReadinessChecklist items).percent ≤ 100) ∧
    (normalizeReadinessChecklist (items ++ [⟨t, some "not_started"⟩])).percent ≤
      (normalizeReadinessChecklist (items ++ [⟨t, some "in_progress"⟩])).percent ∧
    (normalizeReadinessChecklist (items ++ [⟨t, some "in_progress"⟩])).percent ≤
      (normalizeReadinessChecklist (items ++ [⟨t, some "done"⟩])).percent ∧
    (normalizeReadinessChecklist (items ++ [⟨t, some "blocked"⟩])).percent =
      (normalizeReadinessChecklist (items ++ [⟨t, some "not_started"⟩])).percent := by
  refine ⟨⟨percent_nonneg items, percent_le_100 items⟩, ?_, ?_, ?_⟩
  · exact percent_append_mono items t (some "not_started") (some "in_progress")
      (by norm_num [parseReadinessStatus, READINESS_STATUS_VALUES])
  · exact percent_append_mono items t (some "in_progress") (some "done")
      (by norm_num [parseReadinessStatus, READINESS_STATUS_VALUES])
  · show percentW READINESS_DEFINITIONS _ = percentW READINESS_DEFINITIONS _
    rw [percent_eq_floor, percent_eq_floor,
      completedWeightW_append_congr items t (some "blocked") (some "not_started")
        (by norm_num [parseReadinessStatus, READINESS_STATUS_VALUES])]

/-! ## Approval state machine lemmas -/

theorem mapProject_statusHistory_length (p : ProjectRecord) :
    (mapProject p).statusHistory.length = p.statusHistory.length := by
  simp [mapProject, normalizeStatusHistory]

theorem normalizeStatusHistory_length (l : List StatusHistoryEntry) :
    (normalizeStatusHistory l).length = l.length := by
  simp [normalizeStatusHistory]

theorem normalizeTimelineEntries_length (l : List TimelineEntry) :
    (normalizeTimelineEntries l).length = l.length := by
  simp [normalizeTimelineEntries]

/-! ## Claim theorems: approval state machine -/

/-- C2: request from a state other than draft/rejected, and approve/reject
from a state other than in_review, are no-ops: nothing is persisted (the
function returns early with `mapProject(project)`), the returned approval
status matches the stored one, and the history length is unchanged. -/
theorem transition_disallowed_is_noop (p : ProjectRecord) (action : String)
    (payload : ApprovalPayload) (now : Nat)
    (h : (action = "request" ∧
            normalizeApprovalStatus (some p.approvalStatus) ≠ "draft" ∧
            normalizeApprovalStatus (some p.approvalStatus) ≠ "rejected") ∨
         (action = "approve" ∧
            normalizeApprovalStatus (some p.approvalStatus) ≠ "in_review") ∨
         (action = "reject" ∧
            normalizeApprovalStatus (some p.approvalStatus) ≠ "in_review")) :
    transitionProjectApproval p action payload now = .noop p ∧
    (mapProject p).approvalStatus = normalizeApprovalStatus (some p.approvalStatus) ∧
    (mapProject p).statusHistory.length = p.statusHistory.length := by
  refine ⟨?_, rfl, mapProject_statusHistory_length p⟩
  rcases h with ⟨ha, h1, h2⟩ | ⟨ha, h1⟩ | ⟨ha, h1⟩
  · subst ha; simp [transitionProjectApproval, h1, h2]
  · subst ha; simp [transitionProjectApproval, h1]
  · subst ha; simp [transitionProjectApproval, h1]

/-- C2 witness: approve while the stored status is draft is a no-op. -/
theorem transition_disallowed_is_noop_witness :
    transitionProjectApproval (testProject "draft") "approve"
        ⟨none, none, none⟩ 3 = .noop (testProject "draft") ∧
    (mapProject (testProject "draft")).approvalStatus =
      normalizeApprovalStatus (some (testProject "draft").approvalStatus) ∧
    (mapProject (testProject "draft")).statusHistory.length =
      (testProject "draft").statusHistory.length :=
  transition_disallowed_is_noop (testProject "draft") "approve"
    ⟨none, none, none⟩ 3 (Or.inr (Or.inl ⟨rfl, by decide⟩))

/-- C3: request from draft or rejected moves the project to in_review,
stamps `approvalRequestedAt/By`, clears `approvalResolvedAt/By`, takes
`approvalReason` from a non-empty comment, and appends exactly one status
history entry (previousStatus = prior status, status = in_review) and one
timeline entry. -/
theorem transition_request_from_draft_or_rejected (p : ProjectRecord)
    (payload : ApprovalPayload) (now : Nat)
    (h : normalizeApprovalStatus (some p.approvalStatus) = "draft" ∨
         normalizeApprovalStatus (some p.approvalStatus) = "rejected") :
    ∃ r, transitionProjectApproval p "request" payload now = .persisted r ∧
      r.approvalStatus = "in_review" ∧
      r.approvalRequestedAt = some now ∧
      r.approvalRequestedBy = payload.actorId ∧
      r.approvalResolvedAt = none ∧
      r.approvalResolvedBy = none ∧
      (∀ c, payload.comment = some c → jsTrim c ≠ "" →
        r.approvalReason = some (jsTrim c)) ∧
      (∃ e, r.statusHistory = normalizeStatusHistory p.statusHistory ++ [e] ∧
        e.previousStatus = some (normalizeApprovalStatus (some p.approvalStatus)) ∧
        e.status = "in_review") ∧
      r.statusHistory.length = p.statusHistory.length + 1 ∧
      (∃ tl, r.timeline = normalizeTimelineEntries p.timeline ++ [tl]) ∧
      r.timeline.length = p.timeline.length + 1 := by
  rcases h with h | h <;>
  · unfold transitionProjectApproval
    rw [h]
    simp only [String.reduceEq, reduceIte, ne_eq, not_false_eq_true, and_true,
      if_true, if_false, reduceCtorEq, or_false, false_or, or_self]
    refine ⟨_, rfl, rfl, rfl, rfl, rfl, rfl, ?_, ⟨_, rfl, rfl, rfl⟩, ?_,
      ⟨_, rfl⟩, ?_⟩
    · intro c hc hne
      simp [hc, hne]
    · simp [normalizeStatusHistory_length]
    · simp [normalizeTimelineEntries_length]

/-- C3 witness: request on a draft project. -/
theorem transition_request_witness :
    ∃ r, transitionProjectApproval (testProject "draft") "request"
        ⟨some 2, none, some "please review"⟩ 5 = .persisted r ∧
      r.approvalStatus = "in_review" ∧
      r.approvalRequestedAt = some 5 ∧
      r.approvalRequestedBy = some 2 ∧
      r.approvalResolvedAt = none ∧
      r.approvalResolvedBy = none ∧
      r.approvalReason = some (jsTrim "please review") ∧
      (∃ e, r.statusHistory =
          normalizeStatusHistory (testProject "draft").statusHistory ++ [e] ∧
        e.previousStatus =
          some (normalizeApprovalStatus (some (testProject "draft").approvalStatus)) ∧
        e.status = "in_review") ∧
      r.statusHistory.length = (testProject "draft").statusHistory.length + 1 := by
  obtain ⟨r, hr, hst, hra, hrb, hsa, hsb, hreason, he, hlen, _, _⟩ :=
    transition_request_from_draft_or_rejected (testProject "draft")
      ⟨some 2, none, some "please review"⟩ 5 (Or.inl (by decide))
  exact ⟨r, hr, hst, hra, hrb, hsa, hsb,
    hreason "please review" rfl (by decide), he, hlen⟩

/-- C4: reset is allowed from every state: it persists status draft and
clears all approval timestamps, actors and the reason. -/
theorem transition_reset_unconditional (p : ProjectRecord)
    (payload : ApprovalPayload) (now : Nat) :
    ∃ r, transitionProjectApproval p "reset" payload now = .persisted r ∧
      r.approvalStatus = "draft" ∧
      r.approvalRequestedAt = none ∧
      r.approvalRequestedBy = none ∧
      r.approvalResolvedAt = none ∧
      r.approvalResolvedBy = none ∧
      r.approvalReason = none := by
  unfold transitionProjectApproval
  simp only [String.reduceEq, reduceIte, ne_eq, not_true_eq_false, and_false,
    if_false]
  exact ⟨_, rfl, rfl, rfl, rfl, rfl, rfl, rfl⟩

/-- C5: the client blocks a reject whose built payload has a falsy (empty
or missing) comment before any server call; server-side, reject with a
non-empty comment on an in_review project persists status rejected with the
(trimmed) comment as `approvalReason`. -/
theorem reject_needs_comment_then_transitions (value : ApprovalFormValue)
    (fallback : Option Int) (p : ProjectRecord) (payload : ApprovalPayload)
    (now : Nat) (c : String)
    (hfalsy : isFalsyComment (buildApprovalPayload value fallback).comment = true)
    (hc : payload.comment = some c) (hne : jsTrim c ≠ "")
    (hst : normalizeApprovalStatus (some p.approvalStatus) = "in_review") :
    performApprovalAction true value fallback "reject" = .missingRejectReason ∧
    ∃ r, transitionProjectApproval p "reject" payload now = .persisted r ∧
      r.approvalStatus = "rejected" ∧
      r.approvalReason = some (jsTrim c) := by
  constructor
  · simp [performApprovalAction, hfalsy]
  · unfold transitionProjectApproval
    rw [hst]
    simp only [String.reduceEq, reduceIte, ne_eq, not_false_eq_true, and_true,
      if_true, if_false, reduceCtorEq, or_false, false_or, or_self]
    refine ⟨_, rfl, rfl, ?_⟩
    simp [hc, hne]

/-- C5 witness: empty-comment reject blocked client-side; "needs work"
reject on an in_review project persists rejected with that reason. -/
theorem reject_needs_comment_witness :
    performApprovalAction true ⟨none, none, some ""⟩ none "reject" =
      .missingRejectReason ∧
    ∃ r, transitionProjectApproval (testProject "in_review") "reject"
        ⟨some 4, none, some "needs work"⟩ 6 = .persisted r ∧
      r.approvalStatus = "rejected" ∧
      r.approvalReason = some (jsTrim "needs work") :=
  reject_needs_comment_then_transitions ⟨none, none, some ""⟩ none
    (testProject "in_review") ⟨some 4, none, some "needs work"⟩ 6 "needs work"
    (by decide) rfl (by decide) (by decide)

/-- C6 witness: an unknown status string is scored as not_started. -/
theorem unknown_status_witness :
    parseReadinessStatus (some "wip") = .not_started ∧
    normalizeReadinessChecklist ([] ++ [⟨"scopeDefined", some "wip"⟩]) =
      normalizeReadinessChecklist
        ([] ++ [⟨"scopeDefined", some "not_started"⟩]) :=
  unknown_status_treated_as_not_started (some "wip") [] "scopeDefined"
    (by decide)

/-! ## Reviewer-comment ledger lemmas -/

theorem findIdx?_modify_of_pres {α : Type} (p : α → Bool) (f : α → α)
    (hf : ∀ a, p (f a) = p a) :
    ∀ (l : List α) (i s : Nat),
      List.findIdx? p (List.modify f i l) s = List.findIdx? p l s := by
  intro l
  induction l with
  | nil => intro i s; simp [List.modify_nil]
  | cons x xs ih =>
      intro i s
      cases i with
      | zero => simp [List.modify_zero_cons, List.findIdx?_cons, hf x]
      | succ j => simp [List.modify_succ_cons, List.findIdx?_cons, ih j]

theorem find?_modify_of_found {α : Type} (p : α → Bool) (f : α → α)
    (hf : ∀ a, p (f a) = p a) :
    ∀ (l : List α) (i : Nat), List.findIdx p l = i → i < l.length →
      List.find? p (List.modify f i l) = Option.map f l[i]? := by
  intro l
  induction l with
  | nil => intro i _ hlen; simp at hlen
  | cons x xs ih =>
      intro i hidx hlen
      rw [List.findIdx_cons] at hidx
      cases hp : p x with
      | true =>
          rw [hp, cond_true] at hidx
          subst hidx
          simp [List.modify_zero_cons, List.find?_cons, hf x, hp]
      | false =>
          rw [hp, cond_false] at hidx
          subst hidx
          simp only [List.modify_succ_cons, List.find?_cons, hp,
            List.getElem?_cons_succ]
          exact ih _ rfl (by simpa using hlen)

theorem resolveCommentUpdate_id (payload : ResolveCommentPayload) (now : Nat)
    (a : ReviewerCommentEntry) :
    (resolveCommentUpdate payload now a).id = a.id := rfl

theorem normalizeReviewerCommentEntry_id (a : ReviewerCommentEntry) :
    (normalizeReviewerCommentEntry a).id = a.id := rfl

theorem resolve_found_eq (p : ProjectRecord) (cid : String)
    (pl : ResolveCommentPayload) (now : Nat) (i : Nat)
    (hi : (normalizeReviewerComments p.reviewerComments).findIdx?
        (fun c => c.id == cid) = some i) :
    resolveProjectReviewerComment p cid pl now = .ok
      { p with
        reviewerComments :=
          List.modify (resolveCommentUpdate pl now) i
            (normalizeReviewerComments p.reviewerComments) } := by
  simp only [resolveProjectReviewerComment, hi]

theorem resolved_after_update (pl : ResolveCommentPayload) (now : Nat)
    (a : ReviewerCommentEntry) (h : pl.resolved = some true) :
    (resolveCommentUpdate pl now a).resolved = true := by
  simp [resolveCommentUpdate, h]

/-! ## Claim theorems: reviewer-comment ledger and persistence -/

/-- C9: resolving a reviewer comment with `resolved: true` twice is
idempotent: both calls succeed, after each call the entry is resolved, and
the second call neither duplicates nor deletes entries (same list length). -/
theorem resolveComment_twice_idempotent (p : ProjectRecord) (cid : String)
    (pl1 pl2 : ResolveCommentPayload) (now1 now2 : Nat)
    (h1 : pl1.resolved = some true) (h2 : pl2.resolved = some true)
    (hfound : (normalizeReviewerComments p.reviewerComments).findIdx?
        (fun c => c.id == cid) ≠ none) :
    ∃ r1 r2,
      resolveProjectReviewerComment p cid pl1 now1 = .ok r1 ∧
      resolveProjectReviewerComment r1 cid pl2 now2 = .ok r2 ∧
      commentResolvedState r1.reviewerComments cid = some true ∧
      commentResolvedState r2.reviewerComments cid = some true ∧
      r2.reviewerComments.length = r1.reviewerComments.length := by
  obtain ⟨i, hi⟩ := Option.ne_none_iff_exists'.mp hfound
  have hpres1 : ∀ a : ReviewerCommentEntry,
      ((resolveCommentUpdate pl1 now1 a).id == cid) = (a.id == cid) :=
    fun a => rfl
  have hpresn : ((fun c : ReviewerCommentEntry => c.id == cid) ∘
      normalizeReviewerCommentEntry) = (fun c => c.id == cid) := rfl
  have key1 := resolve_found_eq p cid pl1 now1 i hi
  set l1 := normalizeReviewerComments p.reviewerComments with hl1def
  set r1 : ProjectRecord :=
    { p with
      reviewerComments := List.modify (resolveCommentUpdate pl1 now1) i l1 }
    with hr1def
  have hifound := (List.findIdx?_eq_some_iff_findIdx_eq).mp hi
  have hresolved1 : commentResolvedState r1.reviewerComments cid = some true := by
    have hfind := find?_modify_of_found (fun c => c.id == cid)
      (resolveCommentUpdate pl1 now1) hpres1 l1 i hifound.2 hifound.1
    have hget : l1[i]? = some l1[i] := List.getElem?_eq_getElem hifound.1
    rw [commentResolvedState]
    show ((List.modify (resolveCommentUpdate pl1 now1) i l1).find?
      (fun c => c.id == cid)).map (fun c => c.resolved) = some true
    rw [hfind, hget]
    simp [resolved_after_update pl1 now1 _ h1]
  have hidx2 : (normalizeReviewerComments r1.reviewerComments).findIdx?
      (fun c => c.id == cid) = some i := by
    show (List.map normalizeReviewerCommentEntry
      (List.modify (resolveCommentUpdate pl1 now1) i l1)).findIdx?
        (fun c => c.id == cid) = some i
    rw [List.findIdx?_map, hpresn,
      findIdx?_modify_of_pres _ _ hpres1 l1 i 0]
    exact hi
  have key2 := resolve_found_eq r1 cid pl2 now2 i hidx2
  set l2 := normalizeReviewerComments r1.reviewerComments with hl2def
  set r2 : ProjectRecord :=
    { r1 with
      reviewerComments := List.modify (resolveCommentUpdate pl2 now2) i l2 }
    with hr2def
  have hifound2 := (List.findIdx?_eq_some_iff_findIdx_eq).mp hidx2
  have hpres2 : ∀ a : ReviewerCommentEntry,
      ((resolveCommentUpdate pl2 now2 a).id == cid) = (a.id == cid) :=
    fun a => rfl
  have hresolved2 : commentResolvedState r2.reviewerComments cid = some true := by
    have hfind := find?_modify_of_found (fun c => c.id == cid)
      (resolveCommentUpdate pl2 now2) hpres2 l2 i hifound2.2 hifound2.1
    have hget : l2[i]? = some l2[i] := List.getElem?_eq_getElem hifound2.1
    rw [commentResolvedState]
    show ((List.modify (resolveCommentUpdate pl2 now2) i l2).find?
      (fun c => c.id == cid)).map (fun c => c.resolved) = some true
    rw [hfind, hget]
    simp [resolved_after_update pl2 now2 _ h2]
  refine ⟨r1, r2, key1, key2, hresolved1, hresolved2, ?_⟩
  show (List.modify (resolveCommentUpdate pl2 now2) i l2).length =
    (List.modify (resolveCommentUpdate pl1 now1) i l1).length
  rw [List.length_modify, List.length_modify]
  show (List.map normalizeReviewerCommentEntry
    (List.modify (resolveCommentUpdate pl1 now1) i l1)).length = _
  rw [List.length_map, List.length_modify]

/-- C9 witness: resolving comment `c1` twice on the test project. -/
theorem resolveComment_twice_witness :
    ∃ r1 r2,
      resolveProjectReviewerComment testCommentProject "c1"
        ⟨some true, some 9, none⟩ 4 = .ok r1 ∧
      resolveProjectReviewerComment r1 "c1"
        ⟨some true, some 9, none⟩ 8 = .ok r2 ∧
      commentResolvedState r1.reviewerComments "c1" = some true ∧
      commentResolvedState r2.reviewerComments "c1" = some true ∧
      r2.reviewerComments.length = r1.reviewerComments.length :=
  resolveComment_twice_idempotent testCommentProject "c1"
    ⟨some true, some 9, none⟩ ⟨some true, some 9, none⟩ 4 8 rfl rfl
    (by decide)

/-- C10: `addProjectReviewerComment` writes only the `reviewerComments` and
`timeline` columns and `resolveProjectReviewerComment` only
`reviewerComments`: approval status, status, status history, readiness
checklist/score, approval timestamps/actors/reason and notes are
untouched (and for resolve, the timeline as well). -/
theorem comment_ops_frame (p : ProjectRecord) (pl : ReviewerCommentPayload)
    (nowA : Nat) (cid : String) (rpl : ResolveCommentPayload) (nowR : Nat)
    (r : ProjectRecord)
    (hres : resolveProjectReviewerComment p cid rpl nowR = .ok r) :
    ((addProjectReviewerComment p pl nowA).status = p.status ∧
     (addProjectReviewerComment p pl nowA).approvalStatus = p.approvalStatus ∧
     (addProjectReviewerComment p pl nowA).approvalRequestedAt = p.approvalRequestedAt ∧
     (addProjectReviewerComment p pl nowA).approvalRequestedBy = p.approvalRequestedBy ∧
     (addProjectReviewerComment p pl nowA).approvalResolvedAt = p.approvalResolvedAt ∧
     (addProjectReviewerComment p pl nowA).approvalResolvedBy = p.approvalResolvedBy ∧
     (addProjectReviewerComment p pl nowA).approvalReason = p.approvalReason ∧
     (addProjectReviewerComment p pl nowA).approvalNotes = p.approvalNotes ∧
     (addProjectReviewerComment p pl nowA).statusHistory = p.statusHistory ∧
     (addProjectReviewerComment p pl nowA).readinessChecklist = p.readinessChecklist ∧
     (addProjectReviewerComment p pl nowA).readinessScore = p.readinessScore) ∧
    (r.status = p.status ∧
     r.approvalStatus = p.approvalStatus ∧
     r.approvalRequestedAt = p.approvalRequestedAt ∧
     r.approvalRequestedBy = p.approvalRequestedBy ∧
     r.approvalResolvedAt = p.approvalResolvedAt ∧
     r.approvalResolvedBy = p.approvalResolvedBy ∧
     r.approvalReason = p.approvalReason ∧
     r.approvalNotes = p.approvalNotes ∧
     r.statusHistory = p.statusHistory ∧
     r.timeline = p.timeline ∧
     r.readinessChecklist = p.readinessChecklist ∧
     r.readinessScore = p.readinessScore) := by
  refine ⟨⟨rfl, rfl, rfl, rfl, rfl, rfl, rfl, rfl, rfl, rfl, rfl⟩, ?_⟩
  cases hidx : (normalizeReviewerComments p.reviewerComments).findIdx?
      (fun c => c.id == cid) with
  | none =>
      simp only [resolveProjectReviewerComment, hidx] at hres
      exact Except.noConfusion hres
  | some i =>
      rw [resolve_found_eq p cid rpl nowR i hidx] at hres
      injection hres with hres
      subst hres
      exact ⟨rfl, rfl, rfl, rfl, rfl, rfl, rfl, rfl, rfl, rfl, rfl, rfl⟩

/-- C10 witness: adding and resolving on the concrete test project. -/
theorem comment_ops_frame_witness :
    ((addProjectReviewerComment testCommentProject
        ⟨none, some "looks good", some 3, none, none⟩ 9).status =
          testCommentProject.status ∧
     (addProjectReviewerComment testCommentProject
        ⟨none, some "looks good", some 3, none, none⟩ 9).approvalStatus =
          testCommentProject.approvalStatus ∧
     (addProjectReviewerComment testCommentProject
        ⟨none, some "looks good", some 3, none, none⟩ 9).approvalRequestedAt =
          testCommentProject.approvalRequestedAt ∧
     (addProjectReviewerComment testCommentProject
        ⟨none, some "looks good", some 3, none, none⟩ 9).approvalRequestedBy =
          testCommentProject.approvalRequestedBy ∧
     (addProjectReviewerComment testCommentProject
        ⟨none, some "looks good", some 3, none, none⟩ 9).approvalResolvedAt =
          testCommentProject.approvalResolvedAt ∧
     (addProjectReviewerComment testCommentProject
        ⟨none, some "looks good", some 3, none, none⟩ 9).approvalResolvedBy =
          testCommentProject.approvalResolvedBy ∧
     (addProjectReviewerComment testCommentProject
        ⟨none, some "looks good", some 3, none, none⟩ 9).approvalReason =
          testCommentProject.approvalReason ∧
     (addProjectReviewerComment testCommentProject
        ⟨none, some "looks good", some 3, none, none⟩ 9).approvalNotes =
          testCommentProject.approvalNotes ∧
     (addProjectReviewerComment testCommentProject
        ⟨none, some "looks good", some 3, none, none⟩ 9).statusHistory =
          testCommentProject.statusHistory ∧
     (addProjectReviewerComment testCommentProject
        ⟨none, some "looks good", some 3, none, none⟩ 9).readinessChecklist =
          testCommentProject.readinessChecklist ∧
     (addProjectReviewerComment testCommentProject
        ⟨none, some "looks good", some 3, none, none⟩ 9).readinessScore =
          testCommentProject.readinessScore) ∧
    (testResolvedProject.status = testCommentProject.status ∧
     testResolvedProject.approvalStatus = testCommentProject.approvalStatus ∧
     testResolvedProject.approvalRequestedAt = testCommentProject.approvalRequestedAt ∧
     testResolvedProject.approvalRequestedBy = testCommentProject.approvalRequestedBy ∧
     testResolvedProject.approvalResolvedAt = testCommentProject.approvalResolvedAt ∧
     testResolvedProject.approvalResolvedBy = testCommentProject.approvalResolvedBy ∧
     testResolvedProject.approvalReason = testCommentProject.approvalReason ∧
     testResolvedProject.approvalNotes = testCommentProject.approvalNotes ∧
     testResolvedProject.statusHistory = testCommentProject.statusHistory ∧
     testResolvedProject.timeline = testCommentProject.timeline ∧
     testResolvedProject.readinessChecklist = testCommentProject.readinessChecklist ∧
     testResolvedProject.readinessScore = testCommentProject.readinessScore) :=
  comment_ops_frame testCommentProject ⟨none, some "looks good", some 3, none, none⟩
    9 "c1" ⟨some true, some 9, none⟩ 4 testResolvedProject rfl

/-- C8 (counterexample): `createProject`/`updateProject` keep a numeric
`readinessScore` supplied in the payload even when it differs from the
derived percent, and `mapProject` returns the stored value — here score 7
against a checklist whose derived percent is 50. -/
theorem readinessScore_override_counterexample :
    (createProjectRecord scoreOverridePayload 0).readinessScore = some 7 ∧
    (createProjectRecord scoreOverridePayload 0).readinessChecklist.percent = 50 ∧
    (createProjectRecord scoreOverridePayload 0).readinessScore ≠
      some ((createProjectRecord scoreOverridePayload 0).readinessChecklist.percent) ∧
    (updateProjectRecord scoreOverridePayload).readinessScore = some 7 ∧
    (mapProject (createProjectRecord scoreOverridePayload 0)).readinessScore = 7 := by
  have hper : (createProjectRecord scoreOverridePayload 0).readinessChecklist.percent = 50 := by
    show (normalizeReadinessChecklist exampleChecklist).percent = 50
    exact exampleChecklist_percent
  refine ⟨rfl, hper, ?_, rfl, rfl⟩
  rw [hper]
  show some (7 : ℤ) ≠ some 50
  decide

/-- C8 (amended): `readinessScore` mirrors the recomputed
`readinessChecklist.percent` whenever the payload does not supply a numeric
`readinessScore`; a supplied number is stored verbatim, and `mapProject`
returns the stored score, falling back to the recomputed percent only when
the stored score is null. -/
theorem readinessScore_mirrors_percent_when_not_overridden
    (payload : ProjectPayload) (now : Nat) (p q : ProjectRecord) (s : ℤ)
    (hpayload : payload.readinessScore = none)
    (hp : p.readinessScore = some s)
    (hq : q.readinessScore = none) :
    (createProjectRecord payload now).readinessScore =
      some (normalizeReadinessChecklist payload.readinessChecklist).percent ∧
    (updateProjectRecord payload).readinessScore =
      some (normalizeReadinessChecklist payload.readinessChecklist).percent ∧
    (mapProject p).readinessScore = s ∧
    (mapProject q).readinessScore =
      (normalizeReadinessChecklist (stateRawItems q.readinessChecklist)).percent := by
  refine ⟨?_, ?_, ?_, ?_⟩
  · simp [createProjectRecord, hpayload]
  · simp [updateProjectRecord, hpayload]
  · simp [mapProject, hp]
  · simp [mapProject, hq]

/-- C8 (amended) witness: concrete payload without a score, stored scores
0 and null. -/
theorem readinessScore_mirrors_witness :
    (createProjectRecord noScorePayload 3).readinessScore =
      some (normalizeReadinessChecklist noScorePayload.readinessChecklist).percent ∧
    (updateProjectRecord noScorePayload).readinessScore =
      some (normalizeReadinessChecklist noScorePayload.readinessChecklist).percent ∧
    (mapProject (testProject "draft")).readinessScore = 0 ∧
    (mapProject { testProject "draft" with readinessScore := none }).readinessScore =
      (normalizeReadinessChecklist (stateRawItems
        ({ testProject "draft" with readinessScore := none }).readinessChecklist)).percent :=
  readinessScore_mirrors_percent_when_not_overridden noScorePayload 3
    (testProject "draft") { testProject "draft" with readinessScore := none }
    0 rfl rfl rfl

end ProjectMgmt
